import Mathlib

/-!
Verification of the JoyLoc location controller.

This file is a shallow embedding of the update controller of `App.tsx`
(the significance filter, the status state machine, in-flight resolver
calls and their settlement, and the watcher error handler) and of the
Gemini geocoding service module (`services/geminiService.ts`), together
with theorems settling the specification's claims about them.
Coordinates are embedded as exact rationals.
-/

/-- Modelled from the spec: the `Status` enumeration of `types.ts` (a file
absent from the sources; its variants `Idle, Locating, Geocoding, Success,
Error` are given by the spec's data model and by their uses in `App.tsx`). -/
inductive Status where
  | idle
  | locating
  | geocoding
  | success
  | error
  deriving DecidableEq, Repr

/-- A coordinate fix `\x7b lat, lon \x7d` as stored in the
`lastPosition` ref of `App.tsx`. -/
structure Coordinate where
  lat : ℚ
  lon : ℚ
  deriving DecidableEq, Repr

/-- The significance threshold `0.0001` appearing in
`handleLocationUpdate`. -/
def threshold : ℚ := 0.0001

/-- The rejection test at the top of `handleLocationUpdate`:
`lastPosition.current && Math.abs(lastPosition.current.lat - latitude) < 0.0001
&& Math.abs(lastPosition.current.lon - longitude) < 0.0001`. -/
def shouldSkip (lastPosition : Option Coordinate) (latitude longitude : ℚ) : Bool :=
  match lastPosition with
  | none => false
  | some lp =>
      decide (|lp.lat - latitude| < threshold) && decide (|lp.lon - longitude| < threshold)

/-- The generic lookup-failure message set by the `catch` of
`handleLocationUpdate`. -/
def resolverFailureMessage : String :=
  "Impossible de déterminer la ville. L\x27API est peut-être occupée."

/-- The fallback message of `handleLocationError`. -/
def unknownLocationErrorMessage : String :=
  "Une erreur de localisation inconnue est survenue."

/-- The `PERMISSION_DENIED` message of `handleLocationError`. -/
def permissionDeniedMessage : String :=
  "Accès à la localisation refusé. Veuillez l\x27activer dans les paramètres de votre navigateur."

/-- The `POSITION_UNAVAILABLE` message of `handleLocationError`. -/
def positionUnavailableMessage : String :=
  "Les informations de localisation ne sont pas disponibles."

/-- The `TIMEOUT` message of `handleLocationError`. -/
def timeoutMessage : String :=
  "La demande de localisation de l\x27utilisateur a expiré."

/-- The `switch` of `handleLocationError`, selecting the message for a
`GeolocationPositionError` code (`PERMISSION_DENIED = 1`,
`POSITION_UNAVAILABLE = 2`, `TIMEOUT = 3`, anything else keeps the
initial unknown-error message). -/
def errorMessageFor (code : Nat) : String :=
  if code = 1 then permissionDeniedMessage
  else if code = 2 then positionUnavailableMessage
  else if code = 3 then timeoutMessage
  else unknownLocationErrorMessage

/-- The controller state of `App.tsx`: the `town`, `status` and `error`
React states, the `lastPosition` ref, and the list of in-flight resolver
calls (pending `getTownFromCoordinates` promises, each recorded with the
coordinate it carries). -/
structure AppState where
  town : Option String
  status : Status
  error : Option String
  lastPosition : Option Coordinate
  inflight : List Coordinate
  deriving DecidableEq, Repr

/-- `handleLocationError`: set `error` to the cause-specific message and
`status` to `ERROR`; `town` and `lastPosition` are untouched. -/
def handleLocationError (s : AppState) (code : Nat) : AppState :=
  { s with error := some (errorMessageFor code), status := Status.error }

/-- The continuation of `handleLocationUpdate` after its awaited
`getTownFromCoordinates` call settles: on fulfilment the `try` branch runs
`setTown(newTown); setStatus(SUCCESS); setError(null)`; on rejection the
`catch` branch runs `setError(generic message); setStatus(ERROR)` and
leaves `town` alone. -/
def applySettlement (s : AppState) (result : Except Unit String) : AppState :=
  match result with
  | Except.ok newTown => { s with town := some newTown, status := Status.success, error := none }
  | Except.error _ => { s with error := some resolverFailureMessage, status := Status.error }

/-- Events delivered to the controller by the single-threaded event loop:
a watcher fix, the settlement (fulfilment or rejection) of the `i`-th
in-flight resolver call, or a watcher error with its code. -/
inductive Event where
  | fix (position : Coordinate)
  | settle (i : Nat) (result : Except Unit String)
  | watcherError (code : Nat)

/-- One event-loop step of the controller.  A fix runs
`handleLocationUpdate` up to its `await` point: the fix is dropped by the
significance check, or else it is stored in `lastPosition`, the status
becomes `GEOCODING`, and one resolver call carrying the fix is issued.
A settlement of a pending call applies the `try`/`catch` writes and
retires that call; a settlement index with no pending call is a no-op.
A watcher error runs `handleLocationError`. -/
def step (s : AppState) (e : Event) : AppState :=
  match e with
  | Event.fix position =>
      if shouldSkip s.lastPosition position.lat position.lon then s
      else
        { s with lastPosition := some { lat := position.lat, lon := position.lon },
                 status := Status.geocoding,
                 inflight := s.inflight ++ [position] }
  | Event.settle i result =>
      if i < s.inflight.length then
        { applySettlement s result with inflight := s.inflight.eraseIdx i }
      else s
  | Event.watcherError code => handleLocationError s code

/-- Run a sequence of events from a state. -/
def run (s : AppState) (es : List Event) : AppState := es.foldl step s

/-- The initial controller state: the `useState` initialisers and `null`
refs of `App.tsx`. -/
def initialState : AppState :=
  { town := none, status := Status.idle, error := none, lastPosition := none, inflight := [] }

/-- The projection of the controller on `lastPosition` alone: fold the
significance filter over the fix events of a trace, ignoring settlements
and watcher errors.  Its result is the most recent fix accepted by the
filter, or the starting value when no fix was accepted. -/
def trackLast (last : Option Coordinate) : List Event → Option Coordinate
  | [] => last
  | Event.fix b :: es =>
      trackLast (if shouldSkip last b.lat b.lon then last
                 else some { lat := b.lat, lon := b.lon }) es
  | Event.settle _ _ :: es => trackLast last es
  | Event.watcherError _ :: es => trackLast last es

/-- The module-load credential check of `geminiService.ts`:
`const apiKey = process.env.API_KEY; if (!apiKey) throw new Error(...)`,
run when the module loads, before any resolve call can be made.  A missing
environment variable (`none`) and an empty string are both falsy in the
source. -/
def initApiKey (envApiKey : Option String) : Except String String :=
  match envApiKey with
  | none => Except.error "API_KEY environment variable not set"
  | some k =>
      if k = "" then Except.error "API_KEY environment variable not set"
      else Except.ok k

/-- Drop leading and trailing whitespace characters from a character
list: the behaviour of the platform string-trim primitive, written
structurally so it evaluates. -/
def trimChars (l : List Char) : List Char :=
  ((l.dropWhile Char.isWhitespace).reverse.dropWhile Char.isWhitespace).reverse

/-- The platform `trim()` used by `getTownFromCoordinates` on the response
text: remove whitespace from both ends. -/
def jsTrim (s : String) : String := String.mk (trimChars s.data)

/-- The response processing inside the `try` of `getTownFromCoordinates`:
trim the response text, throw on the empty string, then strip backtick
and asterisk characters (codepoints 96 and 42, the character class of the
`replace` regex). -/
def processResponseText (text : String) : Except String String :=
  let townName := jsTrim text
  if townName = "" then Except.error "Received an empty response from the API."
  else Except.ok (String.mk (townName.data.filter (fun c => c.toNat != 96 && c.toNat != 42)))

/-- `getTownFromCoordinates` as observed by its caller: the upstream API
call either fails or produces a response text; any error thrown inside the
`try` (an upstream failure or the empty-response throw) is caught and
rethrown as the generic fetch-failure error. -/
def getTownFromCoordinates (apiResult : Except Unit String) : Except String String :=
  match apiResult with
  | Except.error _ => Except.error "Failed to fetch town name from Gemini API."
  | Except.ok text =>
      match processResponseText text with
      | Except.ok name => Except.ok name
      | Except.error _ => Except.error "Failed to fetch town name from Gemini API."

/-- Unfolding lemma: running a cons of events steps once and continues. -/
theorem run_cons (s : AppState) (e : Event) (es : List Event) :
    run s (e :: es) = run (step s e) es := rfl

/-- Unfolding lemma: settling a pending resolver call applies the
`try`/`catch` writes and retires the call. -/
theorem step_settle_pending (s : AppState) (i : Nat) (r : Except Unit String)
    (hi : i < s.inflight.length) :
    step s (Event.settle i r) =
      { applySettlement s r with inflight := s.inflight.eraseIdx i } := by
  simp [step, hi]

/-- Claim C1: when a stored last-accepted coordinate exists and the new
fix is within `0.0001` of it on both axes, the update handler rejects the
fix: the state is returned unchanged, so no resolver call is issued and
the status, stored coordinate, town and error message are all untouched. -/
theorem c1_insignificant_fix_rejected (s : AppState) (a b : Coordinate)
    (hlast : s.lastPosition = some a)
    (hlat : |a.lat - b.lat| < threshold)
    (hlon : |a.lon - b.lon| < threshold) :
    step s (Event.fix b) = s := by
  have hskip : shouldSkip s.lastPosition b.lat b.lon = true := by
    simp [shouldSkip, hlast, hlat, hlon]
  simp [step, hskip]

/-- Witness for C1 at a concrete state and fix. -/
theorem c1_witness :
    step { initialState with lastPosition := some { lat := 45, lon := 4.8 } }
        (Event.fix { lat := 45.00005, lon := 4.8 })
      = { initialState with lastPosition := some { lat := 45, lon := 4.8 } } :=
  c1_insignificant_fix_rejected _ { lat := 45, lon := 4.8 } _ rfl
    (abs_sub_lt_iff.mpr ⟨by norm_num [threshold], by norm_num [threshold]⟩)
    (abs_sub_lt_iff.mpr ⟨by norm_num [threshold], by norm_num [threshold]⟩)

/-- Claim C2: a fix with no stored last-accepted coordinate, or differing
from it by at least `0.0001` on some axis, is accepted: the stored
coordinate becomes the fix, the status becomes `GEOCODING`, and exactly
one resolver call carrying exactly the fix's latitude and longitude is
issued. -/
theorem c2_significant_fix_accepted (s : AppState) (b : Coordinate)
    (h : s.lastPosition = none ∨
      ∃ a, s.lastPosition = some a ∧
        (threshold ≤ |a.lat - b.lat| ∨ threshold ≤ |a.lon - b.lon|)) :
    step s (Event.fix b) =
      { s with lastPosition := some { lat := b.lat, lon := b.lon },
               status := Status.geocoding,
               inflight := s.inflight ++ [b] } := by
  have hskip : shouldSkip s.lastPosition b.lat b.lon = false := by
    rcases h with h | ⟨a, ha, hge⟩
    · simp [shouldSkip, h]
    · simp only [shouldSkip, ha, Bool.and_eq_false_iff, decide_eq_false_iff_not, not_lt]
      exact hge
  simp [step, hskip]

/-- Witness for C2 at the initial state (no prior coordinate). -/
theorem c2_witness :
    step initialState (Event.fix { lat := 45, lon := 4.8 })
      = { initialState with lastPosition := some { lat := 45, lon := 4.8 },
                            status := Status.geocoding,
                            inflight := initialState.inflight ++ [{ lat := 45, lon := 4.8 }] } :=
  c2_significant_fix_accepted initialState { lat := 45, lon := 4.8 } (Or.inl rfl)

/-- Counterexample to claim C3: a fix whose largest axis delta relative to
the stored coordinate equals exactly `0.0001` is accepted by the code (a
resolver call carrying it is issued), while the claim says such a fix is
rejected. -/
theorem c3_counterexample :
    |(45 : ℚ) - 45.0001| = threshold ∧
    (step { initialState with lastPosition := some { lat := 45, lon := 4.8 } }
        (Event.fix { lat := 45.0001, lon := 4.8 })).inflight
      = [{ lat := 45.0001, lon := 4.8 }] := by
  constructor
  · rw [abs_sub_comm, abs_of_nonneg (by norm_num)]; norm_num [threshold]
  · have hskip : shouldSkip (some { lat := (45 : ℚ), lon := 4.8 }) 45.0001 4.8 = false := by
      simp only [shouldSkip, Bool.and_eq_false_iff, decide_eq_false_iff_not, not_lt]
      left
      rw [abs_sub_comm, abs_of_nonneg (by norm_num)]
      norm_num [threshold]
    simp [step, initialState, hskip]

/-- Claim C3 amended: with a stored last-accepted coordinate, a new fix is
accepted when some axis delta is at least the threshold `0.0001` (so a
delta of exactly `0.0001` is accepted, not rejected), and rejected exactly
when both axis deltas are strictly below the threshold. -/
theorem c3_threshold_is_inclusive (s : AppState) (a b : Coordinate)
    (hlast : s.lastPosition = some a) :
    (threshold ≤ |a.lat - b.lat| ∨ threshold ≤ |a.lon - b.lon| →
        step s (Event.fix b) =
          { s with lastPosition := some { lat := b.lat, lon := b.lon },
                   status := Status.geocoding,
                   inflight := s.inflight ++ [b] }) ∧
    (|a.lat - b.lat| < threshold → |a.lon - b.lon| < threshold →
        step s (Event.fix b) = s) := by
  constructor
  · intro hge
    have hskip : shouldSkip s.lastPosition b.lat b.lon = false := by
      simp only [shouldSkip, hlast, Bool.and_eq_false_iff, decide_eq_false_iff_not, not_lt]
      exact hge
    simp [step, hskip]
  · intro h1 h2
    have hskip : shouldSkip s.lastPosition b.lat b.lon = true := by
      simp [shouldSkip, hlast, h1, h2]
    simp [step, hskip]

/-- Witness for the amended C3: a delta of exactly `0.0001` in latitude is
accepted and issues a resolver call. -/
theorem c3_witness :
    step { initialState with lastPosition := some { lat := 45, lon := 4.8 } }
        (Event.fix { lat := 45.0001, lon := 4.8 })
      = { initialState with lastPosition := some { lat := 45.0001, lon := 4.8 },
                            status := Status.geocoding,
                            inflight := [{ lat := 45.0001, lon := 4.8 }] } := by
  have h := (c3_threshold_is_inclusive
    { initialState with lastPosition := some { lat := 45, lon := 4.8 } }
    { lat := 45, lon := 4.8 } { lat := 45.0001, lon := 4.8 } rfl).1
  refine (h (Or.inl ?_)).trans ?_
  · rw [abs_sub_comm, abs_of_nonneg (by norm_num)]; norm_num [threshold]
  · rfl

/-- Claim C4: when a pending resolver call settles successfully with a
town name, the controller stores the town, sets the status to `SUCCESS`,
and clears the error message. -/
theorem c4_resolver_success (st : AppState) (i : Nat) (name : String)
    (hi : i < st.inflight.length) :
    step st (Event.settle i (Except.ok name)) =
      { st with town := some name, status := Status.success, error := none,
                inflight := st.inflight.eraseIdx i } := by
  rw [step_settle_pending st i (Except.ok name) hi]; rfl

/-- Witness for C4: a success with `"Lyon"` after a previous error yields
`SUCCESS`, town `"Lyon"`, and a cleared error message. -/
theorem c4_witness :
    step { town := none, status := Status.geocoding, error := some resolverFailureMessage,
           lastPosition := some { lat := 45, lon := 4.8 },
           inflight := [{ lat := 45, lon := 4.8 }] }
        (Event.settle 0 (Except.ok "Lyon"))
      = { town := some "Lyon", status := Status.success, error := none,
          lastPosition := some { lat := 45, lon := 4.8 }, inflight := [] } :=
  c4_resolver_success _ 0 "Lyon" (by decide)

/-- Claim C5: when a pending resolver call fails, the controller sets the
status to `ERROR` and the error message to the one generic lookup-failure
string, and leaves the resolved town unchanged. -/
theorem c5_resolver_failure (st : AppState) (i : Nat)
    (hi : i < st.inflight.length) :
    step st (Event.settle i (Except.error ())) =
      { st with error := some resolverFailureMessage, status := Status.error,
                inflight := st.inflight.eraseIdx i } ∧
    (step st (Event.settle i (Except.error ()))).town = st.town := by
  have h : step st (Event.settle i (Except.error ())) =
      { st with error := some resolverFailureMessage, status := Status.error,
                inflight := st.inflight.eraseIdx i } := by
    rw [step_settle_pending st i (Except.error ()) hi]; rfl
  exact ⟨h, by rw [h]⟩

/-- Witness for C5: a failure after a prior success keeps the stale town
`"Lyon"` while the status becomes `ERROR` with the generic message. -/
theorem c5_witness :
    (step { town := some "Lyon", status := Status.success, error := none,
            lastPosition := some { lat := 45, lon := 4.8 },
            inflight := [{ lat := 46, lon := 5 }] }
        (Event.settle 0 (Except.error ()))).town = some "Lyon" :=
  (c5_resolver_failure _ 0 (by decide)).2

/-- Claim C6: a watcher error sets the status to `ERROR` and the error
message to the cause-specific string for its code (codes 1, 2, 3 give
three pairwise distinct fixed messages, any other code the fixed fallback
message), and never alters the town or the stored coordinate. -/
theorem c6_watcher_error (s : AppState) (code : Nat) :
    (handleLocationError s code).status = Status.error ∧
    (handleLocationError s code).error = some (errorMessageFor code) ∧
    (handleLocationError s code).town = s.town ∧
    (handleLocationError s code).lastPosition = s.lastPosition ∧
    errorMessageFor 1 = permissionDeniedMessage ∧
    errorMessageFor 2 = positionUnavailableMessage ∧
    errorMessageFor 3 = timeoutMessage ∧
    (∀ c, c ≠ 1 → c ≠ 2 → c ≠ 3 → errorMessageFor c = unknownLocationErrorMessage) ∧
    List.Pairwise (fun x y => x ≠ y)
      [permissionDeniedMessage, positionUnavailableMessage, timeoutMessage,
       unknownLocationErrorMessage] := by
  refine ⟨rfl, rfl, rfl, rfl, rfl, rfl, rfl, ?_, ?_⟩
  · intro c h1 h2 h3
    simp [errorMessageFor, h1, h2, h3]
  · decide

/-- Witness for C6: a permission-denied error (code 1) yields the
permission message, an unknown code (9) yields the fallback message. -/
theorem c6_witness :
    (handleLocationError initialState 1).error = some permissionDeniedMessage ∧
    (handleLocationError initialState 9).error = some unknownLocationErrorMessage := by
  obtain ⟨-, h2, -, -, h5, -, -, -, -⟩ := c6_watcher_error initialState 1
  obtain ⟨-, g2, -, -, -, -, -, g8, -⟩ := c6_watcher_error initialState 9
  exact ⟨by rw [h2, h5], by rw [g2, g8 9 (by decide) (by decide) (by decide)]⟩

/-- Counterexample to claim C7: two significant fixes in a row, the second
arriving before the first resolver call settles, leave two resolver calls
in flight, so a second call is issued before the first settles. -/
theorem c7_counterexample :
    (run initialState
        [Event.fix { lat := 0, lon := 0 }, Event.fix { lat := 1, lon := 1 }]).inflight
      = [{ lat := 0, lon := 0 }, { lat := 1, lon := 1 }] := by
  have h : shouldSkip (some { lat := (0 : ℚ), lon := 0 }) 1 1 = false := by
    simp only [shouldSkip, Bool.and_eq_false_iff, decide_eq_false_iff_not, abs_sub_lt_iff,
      threshold]
    norm_num
  simp [run, step, initialState, h,
    show ∀ a b : ℚ, shouldSkip none a b = false from fun _ _ => rfl]

/-- Claim C7 amended: more than one resolver call can be in flight at
once (a second significant fix issues a call while the first is still
pending); when two pending calls settle one after the other, the final
status and error message are those written by the settlement processed
last, whatever the first one wrote. -/
theorem c7_overlapping_settlements_last_write_wins (s : AppState) (i j : Nat)
    (r1 r2 : Except Unit String)
    (hj : j < (step s (Event.settle i r1)).inflight.length) :
    ((run s [Event.settle i r1, Event.settle j r2]).status
        = match r2 with
          | Except.ok _ => Status.success
          | Except.error _ => Status.error) ∧
    ((run s [Event.settle i r1, Event.settle j r2]).error
        = match r2 with
          | Except.ok _ => none
          | Except.error _ => some resolverFailureMessage) := by
  have hrun : run s [Event.settle i r1, Event.settle j r2]
      = step (step s (Event.settle i r1)) (Event.settle j r2) := rfl
  rw [hrun, step_settle_pending _ j r2 hj]
  cases r2 <;> exact ⟨rfl, rfl⟩

/-- Witness for the amended C7: with two calls pending, a success
settlement followed by a failure settlement ends in `ERROR` with the
generic message chosen by the last settlement. -/
theorem c7_witness :
    ((run { initialState with inflight := [{ lat := 0, lon := 0 }, { lat := 1, lon := 1 }] }
        [Event.settle 0 (Except.ok "Lyon"), Event.settle 0 (Except.error ())]).status
      = Status.error) ∧
    ((run { initialState with inflight := [{ lat := 0, lon := 0 }, { lat := 1, lon := 1 }] }
        [Event.settle 0 (Except.ok "Lyon"), Event.settle 0 (Except.error ())]).error
      = some resolverFailureMessage) :=
  c7_overlapping_settlements_last_write_wins _ 0 0 (Except.ok "Lyon") (Except.error ())
    (by decide)

/-- Claim C8: after any sequence of events from any state, the stored
last-accepted coordinate is exactly the fold of the significance filter
over the fix events alone: it is written at acceptance time and no
settlement (success or failure) and no watcher error ever changes it. -/
theorem c8_last_position_tracks_filter (s : AppState) (es : List Event) :
    (run s es).lastPosition = trackLast s.lastPosition es := by
  induction es generalizing s with
  | nil => rfl
  | cons e es ih =>
      cases e with
      | fix b =>
          rw [run_cons, ih]
          show trackLast (step s (Event.fix b)).lastPosition es
            = trackLast (if shouldSkip s.lastPosition b.lat b.lon then s.lastPosition
                         else some { lat := b.lat, lon := b.lon }) es
          congr 1
          by_cases h : shouldSkip s.lastPosition b.lat b.lon
          · simp [step, h]
          · simp [step, h]
      | settle i r =>
          rw [run_cons, ih]
          show trackLast (step s (Event.settle i r)).lastPosition es
            = trackLast s.lastPosition es
          congr 1
          by_cases h : i < s.inflight.length
          · rw [step_settle_pending s i r h]
            cases r <;> rfl
          · simp [step, h]
      | watcherError code =>
          rw [run_cons, ih]
          rfl

/-- Claim C9: the Gemini service module's load-time credential check fails
(throws) when the `API_KEY` environment variable is absent, and likewise
when it is the empty string, before any resolve call can be made. -/
theorem c9_missing_api_key_fails_at_load :
    initApiKey none = Except.error "API_KEY environment variable not set" ∧
    initApiKey (some "") = Except.error "API_KEY environment variable not set" :=
  ⟨rfl, rfl⟩

/-- Claim C10: a response whose trimmed text is non-empty but consists
only of backtick characters slips past the emptiness check and, after the
formatting-character stripping, `getTownFromCoordinates` returns the empty
string as a success; a settlement with that value sets the resolved town
to the empty string. -/
theorem c10_formatting_only_response_yields_empty_town :
    jsTrim "``" ≠ "" ∧
    getTownFromCoordinates (Except.ok "``") = Except.ok "" ∧
    (run initialState
        [Event.fix { lat := 0, lon := 0 }, Event.settle 0 (Except.ok "")]).town
      = some "" :=
  ⟨by decide, by rfl, by decide⟩
